import Mathlib

/-!
Shallow embedding of the detection test-suite shell script of clbx/catcatalog
(the bash section of src/services/web/static/app.js, lines 453-551).

The script runs under set -euo pipefail.  Its state is three counters
(PASS, FAIL, WARN) plus the text printed so far; run_clip invokes the
detector, mines its merged output for the marker substring "animal(s)",
scores the clip against the expectation ("detect", "none", "either"),
bumps a counter with the post-increment arithmetic command ((X++)), then
extracts a detection count with
  grep -o '[0-9]* animal' | head -1 | grep -o '[0-9]*'
and prints a result line.  Abnormal termination caused by set -e (a failing
simple command: a non-zero detector exit, an arithmetic command evaluating
to 0, or a failing count-extraction pipeline under pipefail) is modelled
by Except.error carrying the state at death together with the exit status.
-/

/-- Merged stdout and stderr text plus exit status of one detector invocation
(output of python cli/detect.py CLIP --frame-skip N, captured with 2>&1). -/
structure DetectorOut where
  exitCode : Nat
  text : String

/-- The expectation argument of run_clip: the literal strings "detect",
"none" and "either" of the script. -/
inductive Expect where
  | detect
  | none
  | either
deriving DecidableEq

/-- Which of the three counters a scored clip bumps. -/
inductive Counter where
  | pass
  | fail
  | warn
deriving DecidableEq

/-- Script state: the three counters and the lines printed so far. -/
structure St where
  pass : Nat
  fail : Nat
  warn : Nat
  lines : List String

/-- Sum of the three counters, i.e. how many verdicts have been tallied. -/
def totals (st : St) : Nat := st.pass + st.fail + st.warn

/-- The echo builtin: append one printed line. -/
def echo (l : String) (st : St) : St := { st with lines := st.lines ++ [l] }

/-- Substring containment over character lists. -/
def containsSub (needle hay : List Char) : Bool :=
  hay.tails.any (fun t => needle.isPrefixOf t)

/-- The marker check: echo "$output" | grep -q "animal(s)".  In a basic
regular expression the parentheses are literal, so this is containment of
the case-sensitive substring "animal(s)". -/
def hasMarker (s : String) : Bool := containsSub ("animal(s)".data) s.data

/-- First match of the basic regular expression [0-9]* animal, as printed by
grep -o (leftmost match) and reduced by the final grep -o '[0-9]*' to its
digit part: the maximal digit run immediately preceding the first occurrence
of " animal".  When that run is empty the final grep prints nothing and
exits 1, which fails the pipeline under pipefail; this is the Option.none
case. -/
def extractDigits (hay : List Char) : Option (List Char) :=
  match (List.range (hay.length + 1)).find?
      (fun i => (" animal".data).isPrefixOf (hay.drop i)) with
  | Option.none => Option.none
  | Option.some i =>
    let run := ((hay.take i).reverse.takeWhile (fun c => c.isDigit)).reverse
    if run.isEmpty then Option.none else Option.some run

/-- The count variable of run_clip: it keeps its initialisation "0" when
has_detection is false; otherwise it is assigned from the extraction
pipeline, whose failure (Option.none) kills the script under set -e. -/
def countOf (has : Bool) (t : String) : Option String :=
  if has then (extractDigits t.data).map (fun l => String.mk l) else Option.some "0"

/-- The output classifier assembled from the marker check and the count
pipeline: Option.none models the set -e abort on a failing extraction,
otherwise the pair (has_detection, count). -/
def classifyText (t : String) : Option (Bool × String) :=
  match countOf (hasMarker t) t with
  | Option.none => Option.none
  | Option.some c => Option.some (hasMarker t, c)

/-- The case statement of run_clip: result string and tallied counter for
each (expectation, has_detection) pair. -/
def score : Expect → Bool → String × Counter
  | Expect.detect, true => ("PASS", Counter.pass)
  | Expect.detect, false => ("FAIL", Counter.fail)
  | Expect.none, true => ("FAIL", Counter.fail)
  | Expect.none, false => ("PASS", Counter.pass)
  | Expect.either, true => ("OK (detected)", Counter.warn)
  | Expect.either, false => ("OK (missed)", Counter.pass)

/-- The arithmetic command ((X++)): the counter is incremented and the value
of the expression is the old value (post-increment), which is also the basis
of the command's exit status: status 1 when the old value is 0. -/
def bump : Counter → St → St × Nat
  | Counter.pass, st => ({ st with pass := st.pass + 1 }, st.pass)
  | Counter.fail, st => ({ st with fail := st.fail + 1 }, st.fail)
  | Counter.warn, st => ({ st with warn := st.warn + 1 }, st.warn)

/-- basename: the part of the path after the last slash. -/
def basename (p : String) : String :=
  String.mk ((p.data.reverse.takeWhile (fun c => c ≠ '/')).reverse)

/-- Left-justified printf field padding such as %-6s. -/
def padRight (s : String) (n : Nat) : String :=
  s ++ String.mk (List.replicate (n - s.data.length) ' ')

/-- The per-clip line: printf "  %-6s %-30s skip=%-2s  detections=%s". -/
def resultLine (result nm : String) (skip : Nat) (count : String) : String :=
  "  " ++ padRight ("[" ++ result ++ "]") 6 ++ " " ++ padRight nm 30 ++
    " skip=" ++ padRight (toString skip) 2 ++ "  detections=" ++ count

/-- The run_clip function under set -euo pipefail.  In order: capture the
detector output (a non-zero exit status of the assignment kills the script
with that status); compute has_detection; score and bump a counter (an
increment whose old value is 0 makes ((X++)) fail, killing the script with
status 1); extract the count (a failing pipeline kills the script with
status 1); print the result line. -/
def run_clip (det : String → Nat → DetectorOut) (clip : String) (frame_skip : Nat)
    (expect : Expect) (st : St) : Except (St × Nat) St :=
  let o := det clip frame_skip
  if o.exitCode = 0 then
    let has := hasMarker o.text
    let rc := score expect has
    let b := bump rc.2 st
    if b.2 = 0 then Except.error (b.1, 1)
    else
      match countOf has o.text with
      | Option.none => Except.error (b.1, 1)
      | Option.some count =>
        Except.ok (echo (resultLine rc.1 (basename clip) frame_skip count) b.1)
  else Except.error (st, o.exitCode)

/-- One category's for loop: run_clip on each clip in order, propagating a
set -e death. -/
def runClips (det : String → Nat → DetectorOut) (skip : Nat) (e : Expect) :
    List String → St → Except (St × Nat) St
  | [], st => Except.ok st
  | clip :: rest, st =>
    match run_clip det clip skip e st with
    | Except.error x => Except.error x
    | Except.ok st1 => runClips det skip e rest st1

/-- The fixture repository: the listing of each category directory, or
Option.none when the directory does not exist. -/
structure Repo where
  positives : Option (List String)
  negatives : Option (List String)
  closeEnough : Option (List String)

/-- Whether a directory entry is matched by the glob pattern *.mp4 (a glob
never matches a leading dot). -/
def mp4Glob (f : String) : Bool :=
  (".mp4".data.isSuffixOf f.data) && !(".".data.isPrefixOf f.data)

/-- Glob expansions are sorted (lexicographically under the C locale). -/
def sortStr (l : List String) : List String :=
  List.insertionSort (fun a b => a ≤ b) l

/-- The files matched by clips/DIR/*.mp4: members of the directory matching
the pattern, prefixed with the directory path, in sorted order.  A missing
directory matches nothing. -/
def globMatches (d : String) (l : Option (List String)) : List String :=
  sortStr (((l.getD []).filter mp4Glob).map (fun f => d ++ "/" ++ f))

/-- Bash glob expansion without nullglob: when no file matches, the pattern
itself is kept as the single word. -/
def globOr (d pat : String) (l : Option (List String)) : List String :=
  if (globMatches d l).isEmpty then [pat] else globMatches d l

def positivesList (repo : Repo) : List String :=
  globOr "clips/positives" "clips/positives/*.mp4" repo.positives

def negativesList (repo : Repo) : List String :=
  globOr "clips/negatives" "clips/negatives/*.mp4" repo.negatives

def closeList (repo : Repo) : List String :=
  globOr "clips/negative-but-close-enough" "clips/negative-but-close-enough/*.mp4"
    repo.closeEnough

/-- The echoes printed at the top of one frame-skip pass, up to and including
the positives heading. -/
def preState (st : St) (skip : Nat) : St :=
  echo "Positives (expect detections):"
    (echo "" (echo ("--- Frame skip: " ++ toString skip ++ " ---") (echo "" st)))

/-- The echoes printed before the negatives loop. -/
def negState (st : St) : St := echo "Negatives (expect no detections):" (echo "" st)

/-- The echoes printed before the borderline loop. -/
def closeState (st : St) : St :=
  echo "Close enough (either is acceptable):" (echo "" st)

/-- One iteration of the outer frame-skip loop: the three category loops in
order, interleaved with their headings. -/
def runSkip (det : String → Nat → DetectorOut) (repo : Repo) (skip : Nat)
    (st : St) : Except (St × Nat) St :=
  (runClips det skip Expect.detect (positivesList repo) (preState st skip)).bind
    (fun s1 => (runClips det skip Expect.none (negativesList repo) (negState s1)).bind
      (fun s2 => runClips det skip Expect.either (closeList repo) (closeState s2)))

def sepLine : String := "========================================"

def initSt : St := ⟨0, 0, 0, []⟩

/-- State after the three banner echoes at the top of the script. -/
def headerState : St :=
  echo sepLine (echo " Cat Catalog Detection Test Suite" (echo sepLine initSt))

/-- The final summary line. -/
def summaryLine (st : St) : String :=
  " Results: " ++ toString st.pass ++ " passed, " ++ toString st.fail ++
    " failed, " ++ toString st.warn ++ " borderline"

/-- The four echoes after the sweep. -/
def finalState (st : St) : St :=
  echo sepLine (echo (summaryLine st) (echo sepLine (echo "" st)))

/-- The whole script: banner, the frame-skip sweep over 1, 2, 4, the summary,
and the exit status check [ "$FAIL" -gt 0 ].  The result is the final state
(counters and printed lines) paired with the process exit status. -/
def runScript (det : String → Nat → DetectorOut) (repo : Repo) : St × Nat :=
  match runSkip det repo 1 headerState with
  | Except.error x => x
  | Except.ok s1 =>
    match runSkip det repo 2 s1 with
    | Except.error x => x
    | Except.ok s2 =>
      match runSkip det repo 4 s2 with
      | Except.error x => x
      | Except.ok s3 => (finalState s3, if s3.fail > 0 then 1 else 0)

/-- Every line the script manages to print before the first clip of the
first pass is evaluated. -/
def headerLines : List String :=
  [sepLine, " Cat Catalog Detection Test Suite", sepLine, "",
   "--- Frame skip: 1 ---", "", "Positives (expect detections):"]

/-- A detector that always succeeds and reports one detection. -/
def det1 : String → Nat → DetectorOut := fun _ _ => ⟨0, "1 animal(s) detected"⟩

/-- One clip in each category. -/
def repo1 : Repo :=
  ⟨Option.some ["cat.mp4"], Option.some ["street.mp4"], Option.some ["fox.mp4"]⟩

/-- A detector that fails (exit 2) on the single positive clip and succeeds
elsewhere. -/
def det5 : String → Nat → DetectorOut := fun clip _ =>
  if clip = "clips/positives/a.mp4" then ⟨2, "Traceback: cannot open clip"⟩
  else ⟨0, "1 animal(s) detected"⟩

def repo5 : Repo :=
  ⟨Option.some ["a.mp4"], Option.some ["street.mp4"], Option.some ["fox.mp4"]⟩

/-- A detector that fails (exit 2) when handed the unexpanded glob pattern
and succeeds on real clips. -/
def det8 : String → Nat → DetectorOut := fun clip _ =>
  if clip = "clips/positives/*.mp4" then ⟨2, "python: cannot open file"⟩
  else ⟨0, "1 animal(s) detected"⟩

/-- An existing but empty positives directory. -/
def repo8 : Repo :=
  ⟨Option.some [], Option.some ["street.mp4"], Option.some ["fox.mp4"]⟩

/-- A missing positives directory. -/
def repo8m : Repo :=
  ⟨Option.none, Option.some ["street.mp4"], Option.some ["fox.mp4"]⟩

lemma except_error_bind {ε α β : Type} (e : ε) (f : α → Except ε β) :
    (Except.error e : Except ε α).bind f = Except.error e := rfl

lemma bump_zero (st : St) (h0 : st.pass = 0) (h1 : st.fail = 0) (h2 : st.warn = 0)
    (c : Counter) :
    (bump c st).2 = 0 ∧ (bump c st).1.lines = st.lines ∧ totals (bump c st).1 = 1 := by
  cases c <;> simp [bump, totals, h0, h1, h2]

lemma run_clip_zero (det : String → Nat → DetectorOut) (clip : String) (skip : Nat)
    (e : Expect) (st : St) (h0 : st.pass = 0) (h1 : st.fail = 0) (h2 : st.warn = 0) :
    ∃ st' c, run_clip det clip skip e st = Except.error (st', c) ∧ c ≠ 0 ∧
      st'.lines = st.lines ∧ totals st' ≤ 1 ∧ (totals st' = 1 → c = 1) := by
  by_cases hx : (det clip skip).exitCode = 0
  · obtain ⟨hb0, hbl, hbt⟩ :=
      bump_zero st h0 h1 h2 (score e (hasMarker (det clip skip).text)).2
    refine ⟨(bump (score e (hasMarker (det clip skip).text)).2 st).1, 1, ?_,
      one_ne_zero, hbl, le_of_eq hbt, fun _ => rfl⟩
    simp [run_clip, hx, hb0]
  · refine ⟨st, (det clip skip).exitCode, ?_, hx, rfl, ?_, ?_⟩
    · simp [run_clip, hx]
    · simp [totals, h0, h1, h2]
    · simp [totals, h0, h1, h2]

lemma runClips_zero (det : String → Nat → DetectorOut) (skip : Nat) (e : Expect)
    (clip : String) (rest : List String) (st : St)
    (h0 : st.pass = 0) (h1 : st.fail = 0) (h2 : st.warn = 0) :
    ∃ st' c, runClips det skip e (clip :: rest) st = Except.error (st', c) ∧ c ≠ 0 ∧
      st'.lines = st.lines ∧ totals st' ≤ 1 ∧ (totals st' = 1 → c = 1) := by
  obtain ⟨st', c, heq, hc, hl, ht, hi⟩ := run_clip_zero det clip skip e st h0 h1 h2
  exact ⟨st', c, by simp [runClips, heq], hc, hl, ht, hi⟩

lemma globOr_cons (d pat : String) (l : Option (List String)) :
    ∃ x xs, globOr d pat l = x :: xs := by
  unfold globOr
  rcases hms : globMatches d l with _ | ⟨x, xs⟩
  · exact ⟨pat, [], rfl⟩
  · exact ⟨x, xs, rfl⟩

lemma classifyText_marker_free (t : String) (h : hasMarker t = false) :
    classifyText t = Option.some (false, "0") := by
  simp [classifyText, countOf, h]

/-- C1: the case statement of run_clip realises the verdict table: a positive
clip passes exactly when the marker is present, a negative clip passes
exactly when it is absent, and a borderline clip never bumps the fail
counter: detection bumps the warning counter, a miss bumps the pass
counter. -/
theorem c1_verdict_table :
    score Expect.detect true = ("PASS", Counter.pass) ∧
    score Expect.detect false = ("FAIL", Counter.fail) ∧
    score Expect.none true = ("FAIL", Counter.fail) ∧
    score Expect.none false = ("PASS", Counter.pass) ∧
    score Expect.either true = ("OK (detected)", Counter.warn) ∧
    score Expect.either false = ("OK (missed)", Counter.pass) ∧
    (∀ b : Bool, (score Expect.either b).2 ≠ Counter.fail) := by
  decide

/-- C2: with one clip per category and a detector that always reports one
detection and exits 0, the claimed invariant pass + fail + warn = 3 configs
times 3 fixtures = 9 fails: the script dies at its very first ((PASS++))
(which evaluates to 0 under set -e) after tallying a single verdict, so the
counters sum to 1, not 9. -/
theorem c2_counter_invariant_bug :
    totals (runScript det1 repo1).1 = 1 ∧
    ¬ totals (runScript det1 repo1).1 = 3 * 3 := by
  refine ⟨by decide, by decide⟩

/-- C3: on an all-pass run (every invocation exits 0 and reports a
detection, one positive clip) the fail counter is 0 and yet the process
exit status is not 0, because set -e kills the script at the first
((PASS++)); so exit status 0 is not equivalent to a zero fail count. -/
theorem c3_exit_status_bug :
    (runScript det1 repo1).1.fail = 0 ∧ ¬ (runScript det1 repo1).2 = 0 := by
  refine ⟨by decide, by decide⟩

/-- C4 counterexample: on raw output "animal(s) found" the marker is present
but no integer precedes " animal", so the count-extraction pipeline fails
and set -e kills the script (Option.none); classification does not return
detected = true with count = 0 as the claim states. -/
theorem c4_count_decoupling_counterexample :
    classifyText "animal(s) found" = Option.none ∧
    ¬ classifyText "animal(s) found" = Option.some (true, "0") := by
  refine ⟨by decide, by decide⟩

/-- C4 amended: raw output "3 animal(s) detected" classifies as detected
with count "3"; output without the marker classifies as not detected with
count "0"; but output holding the marker without an integer immediately
before " animal" makes the extraction pipeline fail, which aborts the
script under set -e instead of yielding count 0. -/
theorem c4_classifier_amended :
    classifyText "3 animal(s) detected" = Option.some (true, "3") ∧
    (∀ t : String, hasMarker t = false → classifyText t = Option.some (false, "0")) ∧
    classifyText "animal(s) found" = Option.none := by
  refine ⟨by decide, fun t h => classifyText_marker_free t h, by decide⟩

/-- C4 witness: the marker-free branch of the amended classifier claim,
instantiated on a concrete output without the "(s)" marker. -/
theorem c4_classifier_amended_witness :
    hasMarker "no animals here" = false ∧
    classifyText "no animals here" = Option.some (false, "0") :=
  ⟨by decide, c4_classifier_amended.2.1 "no animals here" (by decide)⟩

/-- C5 counterexample: with one positive clip whose invocation exits 2, the
sweep is not recovered locally: the script dies with status 2, no verdict is
tallied for any fixture, and no result line is printed, so the remaining
(fixture, configuration) pairs are never evaluated. -/
theorem c5_invocation_abort_counterexample :
    (runScript det5 repo5).2 = 2 ∧
    totals (runScript det5 repo5).1 = 0 ∧
    (runScript det5 repo5).1.lines = headerLines := by
  refine ⟨by decide, by decide, by decide⟩

/-- C5 amended: a non-zero detector exit status is fatal, not recovered: the
assignment output=$(python ...) fails under set -e, so run_clip dies with
the detector's exit status, leaving the state untouched; the affected
fixture gets no verdict and nothing after it runs. -/
theorem c5_invocation_failure_aborts (det : String → Nat → DetectorOut)
    (clip : String) (skip : Nat) (e : Expect) (st : St)
    (h : ¬ (det clip skip).exitCode = 0) :
    run_clip det clip skip e st = Except.error (st, (det clip skip).exitCode) := by
  simp [run_clip, h]

/-- C5 witness: the fatal-invocation theorem applied to the failing detector
on the positive clip. -/
theorem c5_invocation_failure_aborts_witness :
    ¬ (det5 "clips/positives/a.mp4" 1).exitCode = 0 ∧
    run_clip det5 "clips/positives/a.mp4" 1 Expect.detect initSt =
      Except.error (initSt, (det5 "clips/positives/a.mp4" 1).exitCode) :=
  ⟨by decide, c5_invocation_failure_aborts det5 "clips/positives/a.mp4" 1
    Expect.detect initSt (by decide)⟩

/-- C6: for every detector and repository, the script dies before printing a
single result line: its exit status is non-zero, at most one counter
increment ever happens, the printed output is exactly the header lines up
to the positives heading of the first pass, and whenever a fixture was
scored (the counters sum to 1) the death was the first ((X++)) arithmetic
command evaluating to 0 under set -e, with exit status 1. -/
theorem c6_first_increment_aborts (det : String → Nat → DetectorOut) (repo : Repo) :
    (runScript det repo).2 ≠ 0 ∧
    totals (runScript det repo).1 ≤ 1 ∧
    (runScript det repo).1.lines = headerLines ∧
    (totals (runScript det repo).1 = 1 → (runScript det repo).2 = 1) := by
  obtain ⟨p, ps, hp⟩ :=
    globOr_cons "clips/positives" "clips/positives/*.mp4" repo.positives
  obtain ⟨st', c, heq, hc, hl, ht, hi⟩ :=
    runClips_zero det 1 Expect.detect p ps (preState headerState 1) rfl rfl rfl
  have hpos : positivesList repo = p :: ps := hp
  have hrs : runSkip det repo 1 headerState = Except.error (st', c) := by
    unfold runSkip
    rw [hpos, heq]
    rfl
  have hr : runScript det repo = (st', c) := by
    unfold runScript
    rw [hrs]
  rw [hr]
  have hlines : st'.lines = headerLines := by
    rw [hl]; rfl
  exact ⟨hc, ht, hlines, hi⟩

/-- C6 witness: the scored-fixture branch instantiated on the detector that
always detects: exactly one verdict is tallied and the exit status is 1. -/
theorem c6_first_increment_aborts_witness :
    totals (runScript det1 repo1).1 = 1 ∧ (runScript det1 repo1).2 = 1 :=
  ⟨by decide, (c6_first_increment_aborts det1 repo1).2.2.2 (by decide)⟩

/-- C7: even on a run with no per-fixture failure (one clip per category,
detector always exits 0 and detects), the full report is not printed: the
output contains no per-fixture result line and no summary line, because the
script dies at the first counter increment; the exit status is therefore
not derived from the aggregate fail count. -/
theorem c7_report_bug :
    (runScript det1 repo1).1.lines = headerLines ∧
    ((runScript det1 repo1).1.lines.all
      (fun l => !("  [".data.isPrefixOf l.data))) = true ∧
    ¬ summaryLine (runScript det1 repo1).1 ∈ (runScript det1 repo1).1.lines := by
  refine ⟨by decide, by decide, by decide⟩

/-- C8 counterexample: an existing but empty positives directory does not
yield zero fixtures: the unmatched glob stays as the literal word
clips/positives/*.mp4, the detector is invoked on it (here failing with
exit 2, which surfaces as the process exit status), and no verdict is ever
produced; the claimed no-error, no-invocation behavior does not hold. -/
theorem c8_empty_category_counterexample :
    globOr "clips/positives" "clips/positives/*.mp4" (Option.some []) =
      ["clips/positives/*.mp4"] ∧
    (runScript det8 repo8).2 = 2 ∧
    totals (runScript det8 repo8).1 = 0 := by
  refine ⟨by decide, by decide, by decide⟩

/-- C8 amended: an empty and a missing category directory behave alike:
the glob expands to the literal pattern, which is handed to the detector as
a clip path (there is no RepositoryError pre-check); with a detector that
rejects that path the run aborts with its exit status. -/
theorem c8_glob_literal_amended :
    (∀ d pat : String, globOr d pat Option.none = [pat] ∧
      globOr d pat (Option.some []) = [pat]) ∧
    (runScript det8 repo8m).2 = 2 := by
  refine ⟨fun d pat => ⟨rfl, rfl⟩, by decide⟩

/-- C9 counterexample: enumeration is by the filename pattern *.mp4, not by
group membership alone: a file a.avi placed in the positives directory is
not enumerated while its sibling b.mp4 is. -/
theorem c9_pattern_counterexample :
    globMatches "clips/positives" (Option.some ["b.mp4", "a.avi"]) =
      ["clips/positives/b.mp4"] ∧
    ¬ "clips/positives/a.avi" ∈
      globMatches "clips/positives" (Option.some ["b.mp4", "a.avi"]) := by
  refine ⟨by decide, by decide⟩

/-- C9 amended: for each group the enumeration consists exactly of the
directory members matched by the glob pattern *.mp4 (dotfiles excluded),
prefixed with the directory path, and it is sorted, hence deterministic and
lexicographic. -/
theorem c9_enumeration_amended (d : String) (fs : List String) :
    List.Sorted (fun a b : String => a ≤ b) (globMatches d (Option.some fs)) ∧
    (globMatches d (Option.some fs)).Perm
      ((fs.filter mp4Glob).map (fun f => d ++ "/" ++ f)) := by
  constructor
  · simp only [globMatches, sortStr]
    exact List.sorted_insertionSort _ _
  · simp only [globMatches, sortStr, Option.getD]
    exact List.perm_insertionSort _ _

/-- C10: whenever the classifier returns, its detected flag equals the
marker check (and a set -e death can only happen with the marker present);
the output "0 animal(s) detected" classifies as detected with count "0",
and a detected negative fixture is scored FAIL, bumping the fail
counter. -/
theorem c10_marker_forces_detected :
    (∀ t : String, match classifyText t with
      | Option.none => hasMarker t = true
      | Option.some p => p.1 = hasMarker t) ∧
    classifyText "0 animal(s) detected" = Option.some (true, "0") ∧
    score Expect.none true = ("FAIL", Counter.fail) := by
  refine ⟨fun t => ?_, by decide, by decide⟩
  rcases hc : countOf (hasMarker t) t with _ | c
  · have hga : classifyText t = Option.none := by simp [classifyText, hc]
    rw [hga]
    by_cases hm : hasMarker t
    · exact hm
    · rw [Bool.not_eq_true] at hm
      rw [classifyText_marker_free t hm] at hga
      exact absurd hga (by simp)
  · have hga : classifyText t = Option.some (hasMarker t, c) := by
      simp [classifyText, hc]
    rw [hga]
